import Mathlib

/-!
Verification development for the voice_agent service (src/app.py).

The service exposes read-only lookups over two SQLite datasets
(hospitals/departments/doctors and users) and an inference gateway that
forwards hospital data plus a free-text query to a hosted model.

SQLite rows are dynamically typed, so a row is embedded as an association
list from column names to values; a table is a list of rows.  Each dataset
carries an optional driver fault: the handlers in app.py wrap every body in
a try/except over sqlite3.Error, and the fault models a driver-level error
raised while serving the request.
-/

/-- A SQLite cell value: NULL, an integer, or text. -/
inductive Val where
  | null : Val
  | int : Int → Val
  | text : String → Val
deriving DecidableEq, Repr

/-- A row as returned with sqlite3.Row set as row factory: an association
list from column names to values, in column order. -/
abbrev Row := List (String × Val)

/-- The hospital dataset (hospital_service.db): three tables, plus an
optional driver fault standing for a sqlite3.Error raised while reading. -/
structure HospitalDB where
  hospitals : List Row
  departments : List Row
  doctors : List Row
  fault : Option String := none
deriving DecidableEq, Repr

/-- The user dataset (users.db): one table plus an optional driver fault. -/
structure UserDB where
  users : List Row
  fault : Option String := none
deriving DecidableEq, Repr

/-- An HTTPException as raised in app.py: status code and detail string. -/
structure HTTPError where
  status : Nat
  detail : String
deriving DecidableEq, Repr

/-- The object built by get_hospital_details: the hospital row's own
fields flat at the top, then the departments and doctors lists attached
under their keys (app.py lines 56-64). -/
structure HospitalView where
  fields : Row
  departments : List Row
  doctors : List Row
deriving DecidableEq, Repr

/-- Embedding of get_hospital_details (app.py lines 33-70).  Executes
SELECT * FROM hospitals WHERE id = ?, returning 404 when no row matches,
then SELECT * FROM departments WHERE hospital_id = ? and SELECT * FROM
doctors WHERE hospital_id = ?, composing the nested response.  A driver
fault is caught by the except sqlite3.Error branch and surfaced as a 500
with the driver message embedded. -/
def get_hospital_details (db : HospitalDB) (hospital_id : Int) :
    Except HTTPError HospitalView :=
  match db.fault with
  | some msg => .error ⟨500, "Database error: " ++ msg⟩
  | none =>
    match db.hospitals.find?
        (fun r => decide (List.lookup "id" r = some (Val.int hospital_id))) with
    | none => .error ⟨404, "Hospital not found"⟩
    | some hospital =>
      let departments := db.departments.filter
        (fun r => decide (List.lookup "hospital_id" r = some (Val.int hospital_id)))
      let doctors := db.doctors.filter
        (fun r => decide (List.lookup "hospital_id" r = some (Val.int hospital_id)))
      .ok ⟨hospital, departments, doctors⟩

/-- The eleven column names selected by get_user_details (app.py line 98),
in SELECT order. -/
def userColumns : List String :=
  ["id", "first_name", "last_name", "date_of_birth", "state", "address",
   "phone", "email", "gender", "created_at", "updated_at"]

/-- Embedding of get_user_details (app.py lines 79-107).  Executes
SELECT id, first_name, ..., updated_at FROM users WHERE id = ?: the
projection keeps exactly the eleven named columns of the matching row,
returning 404 when no row matches; a driver fault is surfaced as a 500
with the driver message embedded. -/
def get_user_details (db : UserDB) (user_id : Int) : Except HTTPError Row :=
  match db.fault with
  | some msg => .error ⟨500, "Database error: " ++ msg⟩
  | none =>
    match db.users.find?
        (fun r => decide (List.lookup "id" r = some (Val.int user_id))) with
    | none => .error ⟨404, "User not found"⟩
    | some user =>
      .ok (userColumns.map (fun c => (c, (List.lookup c user).getD Val.null)))

/-- The persisted state visible to the service: both file-based stores. -/
structure World where
  hospitalStore : HospitalDB
  userStore : UserDB
deriving DecidableEq, Repr

/-- One full request to GET /hospital/{hospital_id}: the handler opens a
connection, runs its SELECT statements, and closes the connection; the
returned world is the stored state after the call.  The handler body
contains only SELECT statements, so the store is returned unchanged. -/
def runGetHospital (w : World) (hospital_id : Int) :
    Except HTTPError HospitalView × World :=
  (get_hospital_details w.hospitalStore hospital_id, w)

/-- One full request to GET /user/{user_id}, analogous to runGetHospital. -/
def runGetUser (w : World) (user_id : Int) : Except HTTPError Row × World :=
  (get_user_details w.userStore user_id, w)

/-- Storage-path resolution of the hospital handler (app.py lines 44-46):
os.getenv reads DB_PATH with default hospital_service.db, and if the
resulting path does not exist the handler falls back to the file of the
same name co-located with the service (joined to the script directory).
env is the process environment, fs the set of existing paths. -/
def hospital_db_path (env : List (String × String)) (fs : List String)
    (scriptDir : String) : String :=
  let db_path := (List.lookup "DB_PATH" env).getD "hospital_service.db"
  if fs.contains db_path then db_path else scriptDir ++ "/hospital_service.db"

/-- Storage-path resolution of the user handler (app.py lines 90-92): the
same DB_PATH environment variable, with default users.db and fallback to
the co-located users.db. -/
def user_db_path (env : List (String × String)) (fs : List String)
    (scriptDir : String) : String :=
  let db_path := (List.lookup "DB_PATH" env).getD "users.db"
  if fs.contains db_path then db_path else scriptDir ++ "/users.db"

/-- Python truthiness test used by the config check in call_watsonx
(app.py line 165): os.getenv yields None when unset, and both None and
the empty string are falsy. -/
def pyFalsy : Option String → Bool
  | none => true
  | some s => s.isEmpty

/-- Detail string of the configuration failure (app.py line 166). -/
def watsonxConfigErrorDetail : String :=
  "WATSONX_URL and/or WATSONX_APIKEY environment variables are not set."

/-- Default query text of the string_input body field (app.py line 122). -/
def string_input_default : String :=
  "I would like to get in touch with Dr. Smith from Emergency"

/-- The request body accepted by POST /call_watsonx (app.py lines 121-123). -/
structure WatsonxRequest where
  string_input : String
  hospital_id : Int
deriving DecidableEq, Repr

/-- A raw JSON body for POST /call_watsonx before validation: each of the
two recognized fields may be present or absent. -/
structure WatsonxBody where
  string_input : Option String
  hospital_id : Option Int
deriving DecidableEq, Repr

/-- Body validation for WatsonxRequest, modelling the pydantic semantics
of the class in app.py lines 121-123: hospital_id has no default, so a
body lacking it is rejected with a 422 validation error before the
handler runs; string_input falls back to its declared default. -/
def parseWatsonxRequest (b : WatsonxBody) : Except Nat WatsonxRequest :=
  match b.hospital_id with
  | none => .error 422
  | some h => .ok ⟨b.string_input.getD string_input_default, h⟩

/-- Prompt construction of call_watsonx (app.py lines 184-191): a fixed
instruction, the literal user query, a one-shot example of the expected
output format, and the serialized hospital data. -/
def make_prompt (string_input : String) (data : String) : String :=
  "Get me the phone number of the doctor that the user is requesting. Here is the user's request: " ++
  (string_input ++
    (". Return ONLY the phone number. NO EXPLANATION. Here is an example of a correct response: 123-456-7890. Here is the data: " ++
      (data ++ ".")))

/-- Observable steps of one call_watsonx invocation: constructing the
inference client (app.py lines 168-177), invoking the hospital
aggregation (line 180), and the outbound inference network call
(line 193). -/
inductive Event where
  | clientInit : Event
  | aggregation : Event
  | inference : Event
deriving DecidableEq, Repr

/-- Embedding of call_watsonx (app.py lines 149-194).  The two
configuration values are checked first: if either is missing or empty the
handler fails with a 500 configuration error and nothing else runs.
Otherwise the client is constructed, the hospital aggregation is invoked,
and an aggregation failure is re-wrapped as a 500 carrying the original
detail; on success the prompt is built and submitted to the model.
serialize stands for Python string interpolation of the hospital dict and
generate for the hosted model; the event trace records, in order, which
steps ran. -/
def call_watsonx (url apikey : Option String) (db : HospitalDB)
    (req : WatsonxRequest) (serialize : HospitalView → String)
    (generate : String → String) : Except HTTPError String × List Event :=
  if pyFalsy url || pyFalsy apikey then
    (.error ⟨500, watsonxConfigErrorDetail⟩, [])
  else
    match get_hospital_details db req.hospital_id with
    | .error e =>
      (.error ⟨500, "Failed to retrieve hospital data: " ++ e.detail⟩,
       [Event.clientInit, Event.aggregation])
    | .ok v =>
      (.ok (generate (make_prompt req.string_input (serialize v))),
       [Event.clientInit, Event.aggregation, Event.inference])

/-- Looking up a key in an association list built by tagging each element
of a key list finds the image of that key, for any key of the list. -/
theorem lookup_map_tag (f : String → Val) (c : String) :
    ∀ (l : List String), c ∈ l →
      List.lookup c (l.map (fun x => (x, f x))) = some (f c) := by
  intro l
  induction l with
  | nil => intro hc; cases hc
  | cons x xs ih =>
    intro hc
    by_cases hcx : c = x
    · subst hcx
      simp [List.lookup]
    · have hmem : c ∈ xs := by
        cases hc with
        | head => exact absurd rfl hcx
        | tail _ h => exact h
      have hb : (c == x) = false := by simp [hcx]
      simp [List.lookup, hb, ih hmem]

/-- C1: for every hospital identifier present in storage,
get_hospital_details returns a single object with the hospital row's own
fields flat at the top level, a departments list holding exactly the
department rows whose hospital reference equals that identifier, and a
doctors list holding exactly the doctor rows whose hospital reference
equals that identifier, no more and no fewer. -/
theorem getHospitalDetails_exhaustive (db : HospitalDB) (i : Int) (h : Row)
    (hfault : db.fault = none)
    (hfind : db.hospitals.find?
      (fun r => decide (List.lookup "id" r = some (Val.int i))) = some h) :
    ∃ v, get_hospital_details db i = .ok v ∧
      v.fields = h ∧
      (∀ r, r ∈ v.departments ↔
        r ∈ db.departments ∧ List.lookup "hospital_id" r = some (Val.int i)) ∧
      (∀ r, r ∈ v.doctors ↔
        r ∈ db.doctors ∧ List.lookup "hospital_id" r = some (Val.int i)) := by
  have heq : get_hospital_details db i = .ok ⟨h,
      db.departments.filter
        (fun r => decide (List.lookup "hospital_id" r = some (Val.int i))),
      db.doctors.filter
        (fun r => decide (List.lookup "hospital_id" r = some (Val.int i)))⟩ := by
    simp [get_hospital_details, hfault, hfind]
  refine ⟨_, heq, rfl, ?_, ?_⟩ <;> intro r <;> simp [List.mem_filter]

/-- Instantiation of getHospitalDetails_exhaustive on a concrete store
with one matching hospital, two departments of which one belongs to a
different hospital, and one doctor. -/
theorem getHospitalDetails_exhaustive_witness :
    ∃ v, get_hospital_details
        ⟨[[("id", Val.int 1), ("name", Val.text "General")]],
         [[("id", Val.int 10), ("hospital_id", Val.int 1)],
          [("id", Val.int 11), ("hospital_id", Val.int 2)]],
         [[("id", Val.int 100), ("hospital_id", Val.int 1)]], none⟩ 1 = .ok v ∧
      v.fields = [("id", Val.int 1), ("name", Val.text "General")] ∧
      (∀ r, r ∈ v.departments ↔
        r ∈ [[("id", Val.int 10), ("hospital_id", Val.int 1)],
             [("id", Val.int 11), ("hospital_id", Val.int 2)]] ∧
          List.lookup "hospital_id" r = some (Val.int 1)) ∧
      (∀ r, r ∈ v.doctors ↔
        r ∈ [[("id", Val.int 100), ("hospital_id", Val.int 1)]] ∧
          List.lookup "hospital_id" r = some (Val.int 1)) :=
  getHospitalDetails_exhaustive _ 1 _ rfl (by decide)

/-- C2: for every hospital identifier absent from storage, the request
fails with status 404 and detail Hospital not found, returns no partial
object, and leaves the stored state unchanged. -/
theorem getHospitalDetails_absent_404 (w : World) (i : Int)
    (hfault : w.hospitalStore.fault = none)
    (habsent : ∀ r ∈ w.hospitalStore.hospitals,
      ¬ List.lookup "id" r = some (Val.int i)) :
    runGetHospital w i = (.error ⟨404, "Hospital not found"⟩, w) := by
  have hfind : w.hospitalStore.hospitals.find?
      (fun r => decide (List.lookup "id" r = some (Val.int i))) = none := by
    rw [List.find?_eq_none]
    intro x hx
    simp [habsent x hx]
  simp [runGetHospital, get_hospital_details, hfault, hfind]

/-- Instantiation of getHospitalDetails_absent_404: a store holding only
hospital 1, queried for hospital 999. -/
theorem getHospitalDetails_absent_404_witness :
    runGetHospital
      ⟨⟨[[("id", Val.int 1), ("name", Val.text "General")]], [], [], none⟩,
       ⟨[], none⟩⟩ 999 =
    (.error ⟨404, "Hospital not found"⟩,
     ⟨⟨[[("id", Val.int 1), ("name", Val.text "General")]], [], [], none⟩,
      ⟨[], none⟩⟩) :=
  getHospitalDetails_absent_404 _ 999 rfl (by decide)

/-- C3: for every user identifier present in storage, get_user_details
returns a flat object whose keys are exactly the eleven documented
columns, each value copied verbatim from the stored row, with no extra
fields even when the stored row carries additional columns. -/
theorem getUserDetails_eleven_fields (db : UserDB) (u : Int) (row : Row)
    (hfault : db.fault = none)
    (hfind : db.users.find?
      (fun r => decide (List.lookup "id" r = some (Val.int u))) = some row)
    (hcols : ∀ c ∈ userColumns, (List.lookup c row).isSome = true) :
    ∃ view, get_user_details db u = .ok view ∧
      view.map Prod.fst = userColumns ∧
      ∀ c ∈ userColumns, List.lookup c view = List.lookup c row := by
  have heq : get_user_details db u =
      .ok (userColumns.map (fun c => (c, (List.lookup c row).getD Val.null))) := by
    simp [get_user_details, hfault, hfind]
  refine ⟨_, heq, ?_, ?_⟩
  · simp [Function.comp_def]
  · intro c hc
    rw [lookup_map_tag _ c userColumns hc]
    obtain ⟨x, hx⟩ := Option.isSome_iff_exists.mp (hcols c hc)
    rw [hx]
    rfl

/-- Instantiation of getUserDetails_eleven_fields on a stored row carrying
a twelfth column ssn, which must not appear in the result. -/
theorem getUserDetails_eleven_fields_witness :
    ∃ view, get_user_details
        ⟨[[("id", Val.int 7), ("first_name", Val.text "Ann"),
           ("last_name", Val.text "Lee"),
           ("date_of_birth", Val.text "1990-01-01"),
           ("state", Val.text "IL"), ("address", Val.text "1 Main St"),
           ("phone", Val.text "555-1234"), ("email", Val.text "ann@x.com"),
           ("gender", Val.text "F"),
           ("created_at", Val.text "2024-01-01 00:00:00"),
           ("updated_at", Val.text "2024-01-02 00:00:00"),
           ("ssn", Val.text "123-45-6789")]], none⟩ 7 = .ok view ∧
      view.map Prod.fst = userColumns ∧
      ∀ c ∈ userColumns, List.lookup c view = List.lookup c
        [("id", Val.int 7), ("first_name", Val.text "Ann"),
         ("last_name", Val.text "Lee"),
         ("date_of_birth", Val.text "1990-01-01"),
         ("state", Val.text "IL"), ("address", Val.text "1 Main St"),
         ("phone", Val.text "555-1234"), ("email", Val.text "ann@x.com"),
         ("gender", Val.text "F"),
         ("created_at", Val.text "2024-01-01 00:00:00"),
         ("updated_at", Val.text "2024-01-02 00:00:00"),
         ("ssn", Val.text "123-45-6789")] :=
  getUserDetails_eleven_fields _ 7 _ rfl (by decide) (by decide)

/-- C4: when either configuration value is missing or empty, call_watsonx
fails with the 500 configuration error and the event trace is empty: no
client construction, no hospital aggregation, no network call, for every
store (in particular one where the hospital identifier does not exist)
and every request. -/
theorem callWatsonx_config_error_first (url apikey : Option String)
    (db : HospitalDB) (req : WatsonxRequest)
    (serialize : HospitalView → String) (generate : String → String)
    (hmiss : pyFalsy url = true ∨ pyFalsy apikey = true) :
    call_watsonx url apikey db req serialize generate =
      (.error ⟨500, watsonxConfigErrorDetail⟩, []) := by
  unfold call_watsonx
  rcases hmiss with h | h <;> rw [h] <;> simp

/-- Instantiation of callWatsonx_config_error_first with the URL absent
and a store in which hospital 1 does not exist. -/
theorem callWatsonx_config_error_first_witness :
    call_watsonx none (some "api-key") ⟨[], [], [], none⟩
      ⟨"reach Dr. Smith", 1⟩ (fun _ => "") (fun _ => "ok") =
      (.error ⟨500, watsonxConfigErrorDetail⟩, []) :=
  callWatsonx_config_error_first none (some "api-key") ⟨[], [], [], none⟩
    ⟨"reach Dr. Smith", 1⟩ (fun _ => "") (fun _ => "ok") (Or.inl rfl)

/-- C5: with configuration present and the hospital identifier absent,
call_watsonx fails with status 500 (not 404) and its detail wraps the
original Hospital not found message from the aggregation failure. -/
theorem callWatsonx_wraps_hospital_notfound (url apikey : Option String)
    (db : HospitalDB) (req : WatsonxRequest)
    (serialize : HospitalView → String) (generate : String → String)
    (hurl : pyFalsy url = false) (hkey : pyFalsy apikey = false)
    (hfault : db.fault = none)
    (habsent : ∀ r ∈ db.hospitals,
      ¬ List.lookup "id" r = some (Val.int req.hospital_id)) :
    ∃ e, (call_watsonx url apikey db req serialize generate).1 = .error e ∧
      e.status = 500 ∧ e.status ≠ 404 ∧
      ∃ pre, e.detail = pre ++ "Hospital not found" := by
  have hfind : db.hospitals.find?
      (fun r => decide (List.lookup "id" r = some (Val.int req.hospital_id))) = none := by
    rw [List.find?_eq_none]
    intro x hx
    simp [habsent x hx]
  have hget : get_hospital_details db req.hospital_id =
      .error ⟨404, "Hospital not found"⟩ := by
    simp [get_hospital_details, hfault, hfind]
  refine ⟨⟨500, "Failed to retrieve hospital data: " ++ "Hospital not found"⟩,
    ?_, rfl, by decide, "Failed to retrieve hospital data: ", rfl⟩
  simp [call_watsonx, hurl, hkey, hget]

/-- Instantiation of callWatsonx_wraps_hospital_notfound on a store
holding only hospital 1, queried for hospital 999 with both credentials
set. -/
theorem callWatsonx_wraps_hospital_notfound_witness :
    ∃ e, (call_watsonx (some "https://wx.example") (some "api-key")
        ⟨[[("id", Val.int 1)]], [], [], none⟩ ⟨"reach Dr. Smith", 999⟩
        (fun _ => "") (fun _ => "ok")).1 = .error e ∧
      e.status = 500 ∧ e.status ≠ 404 ∧
      ∃ pre, e.detail = pre ++ "Hospital not found" :=
  callWatsonx_wraps_hospital_notfound (some "https://wx.example")
    (some "api-key") ⟨[[("id", Val.int 1)]], [], [], none⟩
    ⟨"reach Dr. Smith", 999⟩ (fun _ => "") (fun _ => "ok")
    rfl rfl rfl (by decide)

/-- C6 counterexample: both handlers read the single DB_PATH variable, so
one environment setting whose path exists redirects the hospital lookup
and the user lookup to the same file; in particular setting the override
changes which file the user lookup reads. -/
theorem db_path_shared_counterexample :
    hospital_db_path [("DB_PATH", "/data/shared.db")] ["/data/shared.db"]
        "/srv/app" =
      user_db_path [("DB_PATH", "/data/shared.db")] ["/data/shared.db"]
        "/srv/app" ∧
    user_db_path [("DB_PATH", "/data/shared.db")] ["/data/shared.db"]
        "/srv/app" ≠
      user_db_path [] ["/data/shared.db"] "/srv/app" := by
  constructor <;> decide

/-- C6 amended: both lookups recognize the same single DB_PATH override;
when it is set to an existing path both lookups read that one file, and
when it is unset and the per-dataset default does not exist in the
working directory each lookup falls back to its own default file
co-located with the service. -/
theorem db_path_resolution (env : List (String × String)) (fs : List String)
    (sd p : String) :
    (List.lookup "DB_PATH" env = some p → fs.contains p = true →
      hospital_db_path env fs sd = p ∧ user_db_path env fs sd = p) ∧
    (List.lookup "DB_PATH" env = none →
      fs.contains "hospital_service.db" = false →
      hospital_db_path env fs sd = sd ++ "/hospital_service.db") ∧
    (List.lookup "DB_PATH" env = none → fs.contains "users.db" = false →
      user_db_path env fs sd = sd ++ "/users.db") := by
  refine ⟨?_, ?_, ?_⟩ <;> intro h1 h2
  · have hm : p ∈ fs := by simpa using h2
    simp [hospital_db_path, user_db_path, h1, hm]
  · have hm : "hospital_service.db" ∉ fs := by simpa using h2
    simp [hospital_db_path, h1, hm]
  · have hm : "users.db" ∉ fs := by simpa using h2
    simp [user_db_path, h1, hm]

/-- Instantiation of db_path_resolution: an existing override path is
used by both lookups, and with no override and no file in the working
directory each lookup uses its own co-located default. -/
theorem db_path_resolution_witness :
    (hospital_db_path [("DB_PATH", "/data/override.db")] ["/data/override.db"]
        "/srv/app" = "/data/override.db" ∧
     user_db_path [("DB_PATH", "/data/override.db")] ["/data/override.db"]
        "/srv/app" = "/data/override.db") ∧
    hospital_db_path [] [] "/srv/app" = "/srv/app" ++ "/hospital_service.db" ∧
    user_db_path [] [] "/srv/app" = "/srv/app" ++ "/users.db" :=
  ⟨(db_path_resolution [("DB_PATH", "/data/override.db")]
      ["/data/override.db"] "/srv/app" "/data/override.db").1 rfl (by decide),
   (db_path_resolution [] [] "/srv/app" "").2.1 rfl (by decide),
   (db_path_resolution [] [] "/srv/app" "").2.2 rfl (by decide)⟩

/-- C7: with unchanged storage each lookup is a deterministic function of
the identifier and the stored state: a request leaves the stored state
(timestamps included) unchanged, and repeating it against the post-call
state returns the same result and state. -/
theorem lookups_idempotent_readonly (w : World) (hid uid : Int) :
    (runGetHospital w hid).2 = w ∧
    (runGetUser w uid).2 = w ∧
    runGetHospital ((runGetHospital w hid).2) hid = runGetHospital w hid ∧
    runGetUser ((runGetUser w uid).2) uid = runGetUser w uid :=
  ⟨rfl, rfl, rfl, rfl⟩

/-- C8: a user identifier absent from storage yields 404 User not found
with no user data; a driver-level fault in either lookup instead yields
500 with the original driver message embedded; each failure is the
handler's direct result, with no retry. -/
theorem lookup_failures_surfaced (udb : UserDB) (hdb : HospitalDB)
    (uid hid : Int) (msgU msgH : String) :
    (udb.fault = none →
      (∀ r ∈ udb.users, ¬ List.lookup "id" r = some (Val.int uid)) →
      get_user_details udb uid = .error ⟨404, "User not found"⟩) ∧
    (udb.fault = some msgU →
      get_user_details udb uid = .error ⟨500, "Database error: " ++ msgU⟩) ∧
    (hdb.fault = some msgH →
      get_hospital_details hdb hid = .error ⟨500, "Database error: " ++ msgH⟩) := by
  refine ⟨?_, ?_, ?_⟩
  · intro hf habs
    have hfind : udb.users.find?
        (fun r => decide (List.lookup "id" r = some (Val.int uid))) = none := by
      rw [List.find?_eq_none]
      intro x hx
      simp [habs x hx]
    simp [get_user_details, hf, hfind]
  · intro hf
    simp [get_user_details, hf]
  · intro hf
    simp [get_hospital_details, hf]

/-- Instantiation of lookup_failures_surfaced: an absent user id on a
healthy store, then a faulting user store and a faulting hospital store. -/
theorem lookup_failures_surfaced_witness :
    get_user_details ⟨[[("id", Val.int 1)]], none⟩ 42 =
      .error ⟨404, "User not found"⟩ ∧
    get_user_details ⟨[], some "disk I/O error"⟩ 1 =
      .error ⟨500, "Database error: " ++ "disk I/O error"⟩ ∧
    get_hospital_details ⟨[], [], [], some "database is locked"⟩ 1 =
      .error ⟨500, "Database error: " ++ "database is locked"⟩ :=
  ⟨(lookup_failures_surfaced ⟨[[("id", Val.int 1)]], none⟩ ⟨[], [], [], none⟩
      42 1 "" "").1 rfl (by decide),
   (lookup_failures_surfaced ⟨[], some "disk I/O error"⟩ ⟨[], [], [], none⟩
      1 1 "disk I/O error" "").2.1 rfl,
   (lookup_failures_surfaced ⟨[], none⟩ ⟨[], [], [], some "database is locked"⟩
      1 1 "" "database is locked").2.2 rfl⟩

/-- C9: the hospital lookup applies no column projection: the response
carries the matching hospital row verbatim as its flat fields (every
stored column, documented or not, appears in the output), and each row of
the departments and doctors lists is an unprojected stored row. -/
theorem getHospitalDetails_no_projection (db : HospitalDB) (i : Int) (h : Row)
    (hfault : db.fault = none)
    (hfind : db.hospitals.find?
      (fun r => decide (List.lookup "id" r = some (Val.int i))) = some h) :
    ∃ v, get_hospital_details db i = .ok v ∧ v.fields = h ∧
      (∀ kv ∈ h, kv ∈ v.fields) ∧
      (∀ r ∈ v.departments, r ∈ db.departments) ∧
      (∀ r ∈ v.doctors, r ∈ db.doctors) := by
  have heq : get_hospital_details db i = .ok ⟨h,
      db.departments.filter
        (fun r => decide (List.lookup "hospital_id" r = some (Val.int i))),
      db.doctors.filter
        (fun r => decide (List.lookup "hospital_id" r = some (Val.int i)))⟩ := by
    simp [get_hospital_details, hfault, hfind]
  refine ⟨_, heq, rfl, fun kv hkv => hkv, ?_, ?_⟩ <;>
    intro r hr <;> exact (List.mem_filter.mp hr).1

/-- Instantiation of getHospitalDetails_no_projection on a hospital row
carrying an undocumented internal_code column, which the response
exposes. -/
theorem getHospitalDetails_no_projection_witness :
    ∃ v, get_hospital_details
        ⟨[[("id", Val.int 1), ("name", Val.text "General"),
           ("internal_code", Val.text "X17")]],
         [[("id", Val.int 10), ("hospital_id", Val.int 1),
           ("budget", Val.int 99)]], [], none⟩ 1 = .ok v ∧
      v.fields = [("id", Val.int 1), ("name", Val.text "General"),
        ("internal_code", Val.text "X17")] ∧
      (∀ kv ∈ [("id", Val.int 1), ("name", Val.text "General"),
        ("internal_code", Val.text "X17")], kv ∈ v.fields) ∧
      (∀ r ∈ v.departments,
        r ∈ [[("id", Val.int 10), ("hospital_id", Val.int 1),
          ("budget", Val.int 99)]]) ∧
      (∀ r ∈ v.doctors, r ∈ ([] : List Row)) :=
  getHospitalDetails_no_projection _ 1 _ rfl (by decide)

/-- C10: a POST /call_watsonx body without hospital_id is rejected with a
422 validation error before the handler runs; a body supplying only
hospital_id is accepted with string_input bound to the declared default
query text, and the prompt the handler builds embeds that query text
literally. -/
theorem watsonxRequest_body_defaults (b : WatsonxBody) :
    (b.hospital_id = none → parseWatsonxRequest b = .error 422) ∧
    (∀ n, b.hospital_id = some n → b.string_input = none →
      parseWatsonxRequest b = .ok ⟨string_input_default, n⟩) ∧
    (∀ d, ∃ p q, make_prompt string_input_default d =
      p ++ (string_input_default ++ q)) := by
  refine ⟨?_, ?_, ?_⟩
  · intro h
    simp [parseWatsonxRequest, h]
  · intro n h hs
    simp [parseWatsonxRequest, h, hs]
  · intro d
    exact ⟨"Get me the phone number of the doctor that the user is requesting. Here is the user's request: ",
      ". Return ONLY the phone number. NO EXPLANATION. Here is an example of a correct response: 123-456-7890. Here is the data: " ++
        (d ++ "."), rfl⟩

/-- Instantiation of watsonxRequest_body_defaults: a body with only
string_input is rejected, a body with only hospital_id parses to the
default query, and the prompt built from the default embeds it. -/
theorem watsonxRequest_body_defaults_witness :
    parseWatsonxRequest ⟨some "any text", none⟩ = .error 422 ∧
    parseWatsonxRequest ⟨none, some 1⟩ = .ok ⟨string_input_default, 1⟩ ∧
    ∃ p q, make_prompt string_input_default "DATA" =
      p ++ (string_input_default ++ q) :=
  ⟨(watsonxRequest_body_defaults ⟨some "any text", none⟩).1 rfl,
   (watsonxRequest_body_defaults ⟨none, some 1⟩).2.1 1 rfl rfl,
   (watsonxRequest_body_defaults ⟨none, some 1⟩).2.2 "DATA"⟩
